import Mathlib

/-!
Verification of the WebSocket notification layer of the Chat-Genius team
messaging application.

The development shallowly embeds:
* the channel slice of the Redux store
  (src/client/src/store/slices, channelSlice part);
* the client WebSocket hook useWebSocket
  (src/client/src/hooks/useWebSocket.ts): URL construction, the onmessage
  dispatch, the send helper, and the reconnection backoff of its
  reconnecting variant;
* the outbound event types (src/client/src/types/websocket.ts);
* the server-side connection registry and broadcast.  The server/websocket
  directory is absent from the sources (only the task brief describing it is
  present), so those definitions are modelled from the specification text and
  are marked as such in their doc comments.
-/

namespace ChatGenius

/-! ## Channel slice (src/client/src/store/slices, channelSlice) -/

/-- Channel type enumeration of the Channel interface in the channel slice. -/
inductive ChannelType
  | PUBLIC
  | PRIVATE
  | DM
deriving DecidableEq, Repr

/-- The Channel interface of the channel slice. -/
structure Channel where
  channelId : Nat
  name : String
  workspaceId : Nat
  archived : Bool
  description : Option String
  topic : Option String
  channelType : ChannelType
  createdAt : String
deriving DecidableEq, Repr

/-- The ChannelState interface of the channel slice. -/
structure ChannelState where
  channels : List Channel
  currentChannel : Option Channel
  loading : Bool
  error : Option String
  showArchived : Bool
deriving DecidableEq, Repr

/-- The initialState of the channel slice. -/
def channelInitialState : ChannelState :=
  { channels := []
    currentChannel := none
    loading := false
    error := none
    showArchived := false }

/-- The handleChannelCreated reducer of the channel slice: the payload channel
is appended only if no channel with the same channelId is present. -/
def handleChannelCreated (state : ChannelState) (channel : Channel) : ChannelState :=
  let channelExists := state.channels.any (fun c => c.channelId == channel.channelId)
  if channelExists then
    state
  else
    { state with channels := state.channels ++ [channel] }

/-! ## Outbound event types (src/client/src/types/websocket.ts) -/

/-- The type field of WebSocketChannelEvent: one of the three channel
lifecycle event tags. -/
inductive ChannelEventType
  | CHANNEL_CREATED
  | CHANNEL_UPDATED
  | CHANNEL_ARCHIVED
deriving DecidableEq, Repr

/-- Wire string of a channel lifecycle tag. -/
def ChannelEventType.tag : ChannelEventType → String
  | .CHANNEL_CREATED => "CHANNEL_CREATED"
  | .CHANNEL_UPDATED => "CHANNEL_UPDATED"
  | .CHANNEL_ARCHIVED => "CHANNEL_ARCHIVED"

/-- The data field of WebSocketChannelEvent. -/
structure ChannelEventData where
  id : Nat
  name : String
  description : String
  isPrivate : Bool
  workspaceId : Nat
  topic : Option String
  archived : Option Bool
deriving DecidableEq, Repr

/-- The data field of WebSocketMessageEvent. -/
structure MessageEventData where
  messageId : Nat
  channelId : Nat
  content : String
  userId : Nat
  workspaceId : Nat
  createdAt : String
deriving DecidableEq, Repr

/-- WebSocketChannelEvent: type is a channel lifecycle tag. -/
structure WebSocketChannelEvent where
  type : ChannelEventType
  workspaceId : Nat
  data : ChannelEventData
deriving DecidableEq, Repr

/-- WebSocketMessageEvent: the type field is the literal MESSAGE_CREATED,
so only workspaceId and data carry information. -/
structure WebSocketMessageEvent where
  workspaceId : Nat
  data : MessageEventData
deriving DecidableEq, Repr

/-- WebSocketEvent, the union of the two outbound event interfaces. -/
inductive WebSocketEvent
  | channel (e : WebSocketChannelEvent)
  | message (e : WebSocketMessageEvent)
deriving DecidableEq, Repr

/-- Payload of an outbound message: either channel-event data or
message-event data. -/
inductive EventData
  | channel (d : ChannelEventData)
  | message (d : MessageEventData)
deriving DecidableEq, Repr

/-- The common outbound wire shape: a type tag, a workspaceId, and a data
payload. -/
structure OutboundShape where
  type : String
  workspaceId : Nat
  data : EventData
deriving DecidableEq, Repr

/-- Serialization of an outbound event into the common shape, reading off
the three fields of either alternative of WebSocketEvent. -/
def WebSocketEvent.shape : WebSocketEvent → OutboundShape
  | .channel e => { type := e.type.tag, workspaceId := e.workspaceId, data := .channel e.data }
  | .message e => { type := "MESSAGE_CREATED", workspaceId := e.workspaceId, data := .message e.data }

/-- Whether an outbound event is a channel lifecycle event. -/
def WebSocketEvent.isChannelLifecycle : WebSocketEvent → Bool
  | .channel _ => true
  | .message _ => false

/-! ## Client hook useWebSocket (src/client/src/hooks/useWebSocket.ts) -/

/-- The protocol choice of the connect callback: wss for https pages, ws
otherwise. -/
def wsProtocol (locationProtocol : String) : String :=
  if locationProtocol = "https:" then "wss:" else "ws:"

/-- The path-and-query part of the upgrade request URL built by connect. -/
def wsRequestTarget (workspaceId : Nat) : String :=
  "/ws?workspaceId=" ++ Nat.repr workspaceId

/-- The full WebSocket URL built by connect. -/
def wsUrl (locationProtocol host : String) (workspaceId : Nat) : String :=
  wsProtocol locationProtocol ++ "//" ++ host ++ wsRequestTarget workspaceId

/-- Path component of a request target: the characters before the first
question mark. -/
def pathOf (target : String) : String :=
  String.mk (target.data.takeWhile (fun c => c ≠ '?'))

/-- Query component of a request target: the characters after the first
question mark. -/
def queryOf (target : String) : String :=
  String.mk ((target.data.dropWhile (fun c => c ≠ '?')).drop 1)

/-- The event types the onmessage handler dispatches to the channel-event
callback. -/
def dispatchTypes : List String :=
  ["CHANNEL_CREATED", "CHANNEL_UPDATED", "CHANNEL_ARCHIVED"]

/-- A value produced by JSON.parse on an incoming frame; the dispatch code
reads only its type field, the callback receives the whole value. -/
structure ParsedMessage where
  type : String
  raw : String
deriving DecidableEq, Repr

/-- An observable invocation of the registered channel-event callback. -/
inductive HandlerCall
  | onChannelEvent (d : ParsedMessage)
deriving DecidableEq, Repr

/-- Body of the try block of ws.onmessage: parse the frame, then invoke the
channel-event callback when one is registered and the type is a dispatch
type.  An error value is a thrown JSON.parse exception. -/
def onmessageTry (parse : String → Except String ParsedMessage)
    (registered : Bool) (raw : String) : Except String (List HandlerCall) :=
  match parse raw with
  | .error e => .error e
  | .ok data =>
    if registered ∧ dispatchTypes.contains data.type then
      .ok [HandlerCall.onChannelEvent data]
    else
      .ok []

/-- ws.onmessage: the try block wrapped in the catch that logs and swallows
parse errors, so the handler always returns a (possibly empty) list of
callback invocations and never propagates an exception. -/
def onmessage (parse : String → Except String ParsedMessage)
    (registered : Bool) (raw : String) : List HandlerCall :=
  match onmessageTry parse registered raw with
  | .ok calls => calls
  | .error _ => []

/-- readyState values of a browser WebSocket. -/
inductive ReadyState
  | CONNECTING
  | OPEN
  | CLOSING
  | CLOSED
deriving DecidableEq, Repr

/-- The send helper returned by the hook: sends only over an OPEN socket,
otherwise logs a warning and drops the message without error. -/
def clientSend (readyState : ReadyState) (message : String) : Option String :=
  if readyState = ReadyState.OPEN then some message else none

/-- maxReconnectAttempts of the reconnecting variant of the hook. -/
def maxReconnectAttempts : Nat := 5

/-- backoffTime of ws.onclose in the reconnecting variant:
min(1000 * 2 ^ attempts, 10000) milliseconds. -/
def backoffTime (attempts : Nat) : Nat :=
  min (1000 * 2 ^ attempts) 10000

/-- ws.onclose of the reconnecting variant: when the attempt counter is
below maxReconnectAttempts, schedule a reconnect after the backoff delay
and bump the counter; otherwise give up. -/
def oncloseReconnect (attempts : Nat) : Option (Nat × Nat) :=
  if attempts < maxReconnectAttempts then
    some (attempts + 1, backoffTime attempts)
  else
    none

/-- The successive reconnect delays produced when every attempt fails,
starting from counter value n. -/
def reconnectDelays (n : Nat) : List Nat :=
  if h : n < maxReconnectAttempts then
    backoffTime n :: reconnectDelays (n + 1)
  else
    []
termination_by maxReconnectAttempts - n

/-! ## Server connection registry and broadcast

The server/websocket directory is not among the sources; the definitions
below are modelled from the specification text (sections 3 to 5 and 7:
an in-memory map from workspaceId to the set of open connections, with
register, unregister and broadcast operations, best-effort at-most-once
delivery, and silent dropping of sends to disconnected clients). -/

/-- Identifier of a WebSocket connection on the server. -/
abbrev ConnId := Nat

/-- Identifier of a workspace. -/
abbrev WorkspaceId := Nat

/-- Modelled from the spec: the WebSocket layer is stateless beyond an
in-memory mapping of workspaceId to open connections.  registry lists the
current (connection, workspace) subscriptions; openConns lists the
connections whose socket is still open. -/
structure ServerState where
  registry : List (ConnId × WorkspaceId)
  openConns : List ConnId
deriving DecidableEq, Repr

/-- The server state at startup: no subscriptions, no sockets. -/
def initialServer : ServerState :=
  { registry := [], openConns := [] }

/-- Modelled from the spec: register(connection, workspaceId).  A connection
belongs to at most one workspace subscription at a time, so any previous
subscription of the same connection is removed first, and the socket is
recorded as open. -/
def register (st : ServerState) (c : ConnId) (w : WorkspaceId) : ServerState :=
  { registry := (c, w) :: st.registry.filter (fun p => p.1 ≠ c)
    openConns := c :: st.openConns.filter (fun x => x ≠ c) }

/-- Modelled from the spec: unregister(connection) removes the subscription
of the connection and forgets its socket. -/
def unregister (st : ServerState) (c : ConnId) : ServerState :=
  { registry := st.registry.filter (fun p => p.1 ≠ c)
    openConns := st.openConns.filter (fun x => x ≠ c) }

/-- Modelled from the spec: the socket of the connection has died but the
registry entry is still present; the next send to it will fail and be
dropped. -/
def socketClosed (st : ServerState) (c : ConnId) : ServerState :=
  { st with openConns := st.openConns.filter (fun x => x ≠ c) }

/-- Modelled from the spec: a single send attempt.  A send to a client whose
socket is no longer open fails and is silently dropped (no exception, no
retry, no acknowledgment); a send to an open socket delivers the event. -/
def trySend (st : ServerState) (c : ConnId) (ev : WebSocketEvent) :
    Option (ConnId × WebSocketEvent) :=
  if c ∈ st.openConns then some (c, ev) else none

/-- Modelled from the spec: broadcast(workspaceId, event) pushes the event
to every connection currently subscribed to the workspace, collecting the
successful deliveries. -/
def broadcast (st : ServerState) (w : WorkspaceId) (ev : WebSocketEvent) :
    List (ConnId × WebSocketEvent) :=
  (st.registry.filter (fun p => p.2 = w)).filterMap (fun p => trySend st p.1 ev)

/-- Modelled from the spec: the CHANNEL_CREATED event broadcast when a
channel is created in a workspace. -/
def channelCreatedEvent (w : WorkspaceId) (d : ChannelEventData) : WebSocketEvent :=
  .channel { type := .CHANNEL_CREATED, workspaceId := w, data := d }

/-- The externally visible operations of the WebSocket layer: a client
connects to /ws?workspaceId=w, a client disconnects and is unregistered, a
socket dies without being unregistered yet, and a channel is created in a
workspace (the CRUD route then broadcasts). -/
inductive Op
  | connect (c : ConnId) (w : WorkspaceId)
  | disconnect (c : ConnId)
  | close (c : ConnId)
  | createChannel (w : WorkspaceId) (d : ChannelEventData)
deriving DecidableEq, Repr

/-- One step of the layer: the new server state together with the
deliveries performed during the step.  Connecting and disconnecting deliver
nothing (no session resumption, no message replay); creating a channel
broadcasts a CHANNEL_CREATED event to its workspace. -/
def step (st : ServerState) : Op → ServerState × List (ConnId × WebSocketEvent)
  | .connect c w => (register st c w, [])
  | .disconnect c => (unregister st c, [])
  | .close c => (socketClosed st c, [])
  | .createChannel w d => (st, broadcast st w (channelCreatedEvent w d))

/-- Run of a sequence of operations from a state: the final state and the
concatenation of all deliveries. -/
def run (st : ServerState) : List Op → ServerState × List (ConnId × WebSocketEvent)
  | [] => (st, [])
  | op :: ops =>
    let s := step st op
    let r := run s.1 ops
    (r.1, s.2 ++ r.2)

/-- The server state reached from startup by a sequence of operations. -/
def runState (ops : List Op) : ServerState :=
  (run initialServer ops).1

/-- All deliveries performed from startup by a sequence of operations. -/
def deliveries (ops : List Op) : List (ConnId × WebSocketEvent) :=
  (run initialServer ops).2

/-- A client is connected to a workspace in a state when its subscription is
registered for that workspace and its socket is open. -/
def connectedTo (st : ServerState) (c : ConnId) (w : WorkspaceId) : Prop :=
  (c, w) ∈ st.registry ∧ c ∈ st.openConns

instance (st : ServerState) (c : ConnId) (w : WorkspaceId) :
    Decidable (connectedTo st c w) := by
  unfold connectedTo; infer_instance

/-- Modelled from the spec: the upgrade endpoints exposed by the WebSocket
layer; there is a single one, the path /ws targeted by the client hook. -/
def upgradeEndpoints : List String := ["/ws"]

/-- The registry maps each connection to at most one workspace. -/
def RegistryFunctional (st : ServerState) : Prop :=
  ∀ c w w', (c, w) ∈ st.registry → (c, w') ∈ st.registry → w = w'

/-- The registry holds at most one entry per connection. -/
def RegistryKeysNodup (st : ServerState) : Prop :=
  (st.registry.map Prod.fst).Nodup

/-! ### Concrete fixtures used by witness theorems -/

/-- A sample channel. -/
def chan0 : Channel :=
  { channelId := 1, name := "general", workspaceId := 5, archived := false
    description := none, topic := none, channelType := .PUBLIC
    createdAt := "2025-01-01" }

/-- A sample channel state already holding chan0. -/
def state0 : ChannelState :=
  { channelInitialState with channels := [chan0] }

/-- A sample channel event payload. -/
def payload0 : ChannelEventData :=
  { id := 1, name := "general", description := "", isPrivate := false
    workspaceId := 5, topic := none, archived := none }

/-- A sample parsed frame of type CHANNEL_CREATED. -/
def pm0 : ParsedMessage :=
  { type := "CHANNEL_CREATED", raw := "frame" }

/-- A sample parsed frame of type MESSAGE_CREATED. -/
def pmMsg : ParsedMessage :=
  { type := "MESSAGE_CREATED", raw := "frame" }

/-- A parse function that always succeeds with pm0. -/
def parseOk0 (s : String) : Except String ParsedMessage :=
  Except.ok { type := "CHANNEL_CREATED", raw := s }

/-- A parse function that always fails. -/
def parseBad (s : String) : Except String ParsedMessage :=
  Except.error s

/-- A sample outbound channel event. -/
def ev0 : WebSocketEvent := channelCreatedEvent 5 payload0

/-! ## Theorems -/

/-- C8: the handleChannelCreated reducer is idempotent; a payload whose
channelId is already present leaves the state unchanged, so applying the
reducer twice equals applying it once and no duplicate entry is created. -/
theorem handleChannelCreated_idempotent (s : ChannelState) (c : Channel) :
    handleChannelCreated (handleChannelCreated s c) c = handleChannelCreated s c ∧
    ((∃ c0 ∈ s.channels, c0.channelId = c.channelId) → handleChannelCreated s c = s) := by
  constructor
  · by_cases h : s.channels.any (fun x => x.channelId == c.channelId)
    · simp [handleChannelCreated, h]
    · simp [handleChannelCreated, h, List.any_append]
  · rintro ⟨c0, hc0, hid⟩
    have h : s.channels.any (fun x => x.channelId == c.channelId) = true :=
      List.any_eq_true.mpr ⟨c0, hc0, by simp [hid]⟩
    simp [handleChannelCreated, h]

/-- Witness for C8 at a state already containing the payload channel. -/
theorem handleChannelCreated_idempotent_witness :
    handleChannelCreated state0 chan0 = state0 :=
  (handleChannelCreated_idempotent state0 chan0).2 ⟨chan0, by simp [state0], rfl⟩

/-- C9: the channel-event callback fires exactly on registered callbacks,
successfully parsed frames, and the three channel lifecycle types; parse
failures and other event types yield no callback invocation and no
propagated exception. -/
theorem onmessage_dispatch_only_channel_events :
    (∀ parse registered raw d,
      HandlerCall.onChannelEvent d ∈ onmessage parse registered raw ↔
        registered = true ∧ parse raw = Except.ok d ∧ dispatchTypes.contains d.type = true) ∧
    (∀ parse registered raw e, parse raw = Except.error e →
      onmessage parse registered raw = []) ∧
    (∀ parse registered raw d, parse raw = Except.ok d →
      d.type ∉ dispatchTypes → onmessage parse registered raw = []) := by
  refine ⟨?_, ?_, ?_⟩
  · intro parse registered raw d
    unfold onmessage onmessageTry
    cases hp : parse raw with
    | error e => simp
    | ok data =>
      by_cases hcond : registered = true ∧ dispatchTypes.contains data.type = true
      · simp only []
        rw [if_pos hcond]
        simp only []
        simp only [List.mem_singleton, Except.ok.injEq]
        constructor
        · rintro h
          rcases HandlerCall.onChannelEvent.inj h with rfl
          exact ⟨hcond.1, rfl, hcond.2⟩
        · rintro ⟨-, rfl, -⟩
          rfl
      · simp only []
        rw [if_neg hcond]
        simp only [List.not_mem_nil, false_iff]
        rintro ⟨hr, hok, hc⟩
        cases Except.ok.inj hok
        exact hcond ⟨hr, hc⟩
  · intro parse registered raw e hp
    unfold onmessage onmessageTry
    rw [hp]
  · intro parse registered raw d hp hd
    unfold onmessage onmessageTry
    rw [hp]
    simp only []
    rw [if_neg]
    rintro ⟨-, hc⟩
    exact hd (by simpa using hc)

/-- Witness for C9: a CHANNEL_CREATED frame reaches the callback, a parse
failure and a MESSAGE_CREATED frame do not. -/
theorem onmessage_dispatch_only_channel_events_witness :
    (HandlerCall.onChannelEvent pm0 ∈ onmessage parseOk0 true "frame") ∧
    onmessage parseBad true "frame" = [] ∧
    onmessage (fun _ => Except.ok pmMsg) true "frame" = [] := by
  refine ⟨?_, ?_, ?_⟩
  · exact (onmessage_dispatch_only_channel_events.1 parseOk0 true "frame" pm0).mpr
      ⟨rfl, rfl, by decide⟩
  · exact onmessage_dispatch_only_channel_events.2.1 parseBad true "frame" "frame" rfl
  · exact onmessage_dispatch_only_channel_events.2.2 (fun _ => Except.ok pmMsg) true "frame"
      pmMsg rfl (by decide)

/-- Unfolding of run on a cons. -/
theorem run_cons (st : ServerState) (op : Op) (ops : List Op) :
    run st (op :: ops) =
      ((run (step st op).1 ops).1, (step st op).2 ++ (run (step st op).1 ops).2) := rfl

/-- Characterization of broadcast deliveries: a pair is delivered exactly
when it carries the broadcast event and its connection is subscribed to the
broadcast workspace with an open socket. -/
theorem mem_broadcast {st : ServerState} {w : WorkspaceId} {ev x : WebSocketEvent}
    {c : ConnId} :
    (c, x) ∈ broadcast st w ev ↔
      x = ev ∧ (c, w) ∈ st.registry ∧ c ∈ st.openConns := by
  unfold broadcast trySend
  rw [List.mem_filterMap]
  constructor
  · rintro ⟨⟨a, b⟩, hp, hsend⟩
    rcases List.mem_filter.mp hp with ⟨hreg, hw⟩
    have hb : b = w := by simpa using hw
    subst hb
    by_cases hopen : a ∈ st.openConns
    · rw [if_pos hopen] at hsend
      rcases Prod.mk.inj (Option.some.inj hsend) with ⟨rfl, rfl⟩
      exact ⟨rfl, hreg, hopen⟩
    · rw [if_neg hopen] at hsend
      cases hsend
  · rintro ⟨rfl, hreg, hopen⟩
    refine ⟨(c, w), List.mem_filter.mpr ⟨hreg, by simp⟩, ?_⟩
    rw [if_pos hopen]

/-- register rewrites the registry: the new subscription is present and any
other entry survives exactly when it belongs to a different connection. -/
theorem mem_register_registry (st : ServerState) (c : ConnId) (w : WorkspaceId)
    (c' : ConnId) (w' : WorkspaceId) :
    ((c', w') ∈ (register st c w).registry ↔
      (c' = c ∧ w' = w) ∨ (c' ≠ c ∧ (c', w') ∈ st.registry)) := by
  unfold register
  simp only [List.mem_cons, List.mem_filter, Prod.mk.injEq, decide_eq_true_eq]
  constructor
  · rintro (⟨rfl, rfl⟩ | ⟨hmem, hne⟩)
    · exact Or.inl ⟨rfl, rfl⟩
    · exact Or.inr ⟨hne, hmem⟩
  · rintro (⟨rfl, rfl⟩ | ⟨hne, hmem⟩)
    · exact Or.inl ⟨rfl, rfl⟩
    · exact Or.inr ⟨hmem, hne⟩

/-- Each step of the layer preserves functionality of the registry. -/
theorem registryFunctional_step (st : ServerState) (op : Op)
    (h : RegistryFunctional st) : RegistryFunctional (step st op).1 := by
  cases op with
  | connect c w =>
    intro c' w1 w2 h1 h2
    rcases (mem_register_registry st c w c' w1).mp h1 with ⟨he1, hw1⟩ | ⟨hne1, hm1⟩
    · rcases (mem_register_registry st c w c' w2).mp h2 with ⟨-, hw2⟩ | ⟨hne2, -⟩
      · exact hw1.trans hw2.symm
      · exact absurd he1 hne2
    · rcases (mem_register_registry st c w c' w2).mp h2 with ⟨he2, -⟩ | ⟨-, hm2⟩
      · exact absurd he2 hne1
      · exact h c' w1 w2 hm1 hm2
  | disconnect c =>
    intro c' w1 w2 h1 h2
    exact h c' w1 w2 (List.mem_of_mem_filter h1) (List.mem_of_mem_filter h2)
  | close c =>
    intro c' w1 w2 h1 h2
    exact h c' w1 w2 h1 h2
  | createChannel w d =>
    intro c' w1 w2 h1 h2
    exact h c' w1 w2 h1 h2

/-- Functionality of the registry is preserved along any run. -/
theorem registryFunctional_run (ops : List Op) (st : ServerState)
    (h : RegistryFunctional st) : RegistryFunctional (run st ops).1 := by
  induction ops generalizing st with
  | nil => exact h
  | cons op rest ih => exact ih (step st op).1 (registryFunctional_step st op h)

/-- Every reachable server state has a functional registry. -/
theorem registryFunctional_runState (ops : List Op) :
    RegistryFunctional (runState ops) := by
  apply registryFunctional_run
  intro c w w' h1
  cases h1

/-- Each step of the layer preserves distinctness of registry keys. -/
theorem registryKeysNodup_step (st : ServerState) (op : Op)
    (h : RegistryKeysNodup st) : RegistryKeysNodup (step st op).1 := by
  cases op with
  | connect c w =>
    unfold RegistryKeysNodup at h ⊢
    show (((c, w) :: st.registry.filter (fun p => p.1 ≠ c)).map Prod.fst).Nodup
    simp only [List.map_cons, List.nodup_cons]
    constructor
    · intro hmem
      rcases List.mem_map.mp hmem with ⟨p, hp, hfst⟩
      rcases List.mem_filter.mp hp with ⟨-, hne⟩
      exact absurd hfst (by simpa using hne)
    · exact h.sublist ((List.filter_sublist st.registry).map Prod.fst)
  | disconnect c =>
    unfold RegistryKeysNodup at h ⊢
    show ((st.registry.filter (fun p => p.1 ≠ c)).map Prod.fst).Nodup
    exact h.sublist ((List.filter_sublist st.registry).map Prod.fst)
  | close c => exact h
  | createChannel w d => exact h

/-- Distinctness of registry keys is preserved along any run. -/
theorem registryKeysNodup_run (ops : List Op) (st : ServerState)
    (h : RegistryKeysNodup st) : RegistryKeysNodup (run st ops).1 := by
  induction ops generalizing st with
  | nil => exact h
  | cons op rest ih => exact ih (step st op).1 (registryKeysNodup_step st op h)

/-- Every reachable server state has distinct registry keys. -/
theorem registryKeysNodup_runState (ops : List Op) :
    RegistryKeysNodup (runState ops) :=
  registryKeysNodup_run ops initialServer List.nodup_nil

/-- broadcast is the map over the subscribed-and-open part of the registry. -/
theorem broadcast_eq_map (st : ServerState) (w : WorkspaceId) (ev : WebSocketEvent) :
    broadcast st w ev =
      ((st.registry.filter (fun p => p.2 = w)).filter
        (fun p => p.1 ∈ st.openConns)).map (fun p => (p.1, ev)) := by
  unfold broadcast trySend
  induction st.registry.filter (fun p => p.2 = w) with
  | nil => rfl
  | cons p l ih =>
    by_cases hopen : p.1 ∈ st.openConns
    · simp [List.filterMap_cons, List.filter_cons, hopen, ih]
    · simp [List.filterMap_cons, List.filter_cons, hopen, ih]

/-- A broadcast from a state with distinct registry keys delivers to each
connection at most once. -/
theorem broadcast_nodup (st : ServerState) (h : RegistryKeysNodup st)
    (w : WorkspaceId) (ev : WebSocketEvent) : (broadcast st w ev).Nodup := by
  rw [broadcast_eq_map]
  have hsub :
      List.Sublist
        (((st.registry.filter (fun p => p.2 = w)).filter
          (fun p => p.1 ∈ st.openConns)).map Prod.fst)
        (st.registry.map Prod.fst) :=
    (((List.filter_sublist _).trans (List.filter_sublist _)).map Prod.fst)
  have hkeys :
      (((st.registry.filter (fun p => p.2 = w)).filter
        (fun p => p.1 ∈ st.openConns)).map Prod.fst).Nodup := h.sublist hsub
  have hinj : Function.Injective (fun c : ConnId => (c, ev)) := by
    intro a b hab
    exact (Prod.mk.inj hab).1
  have := hkeys.map hinj
  rwa [List.map_map] at this

/-- C7: in every reachable state of the connection registry each connection
is subscribed to at most one workspace, and registering a connection for a
new workspace removes its previous subscription. -/
theorem connection_single_subscription :
    (∀ ops c w w', (c, w) ∈ (runState ops).registry →
      (c, w') ∈ (runState ops).registry → w = w') ∧
    (∀ st c w c' w', ((c', w') ∈ (register st c w).registry ↔
      (c' = c ∧ w' = w) ∨ (c' ≠ c ∧ (c', w') ∈ st.registry))) :=
  ⟨fun ops => registryFunctional_runState ops, mem_register_registry⟩

/-- Witness for C7: after the registry has seen a resubscription of
connection 1 from workspace 5 to workspace 7, any two subscriptions of
connection 1 agree, and the entry for workspace 5 is gone. -/
theorem connection_single_subscription_witness :
    (7 : WorkspaceId) = 7 ∧
    ((2, 5) ∈ (register (runState [Op.connect 1 5]) 1 7).registry ↔
      (2 ≠ 1 ∧ ((2 : ConnId), (5 : WorkspaceId)) ∈ (runState [Op.connect 1 5]).registry)) := by
  constructor
  · exact connection_single_subscription.1 [Op.connect 1 5, Op.connect 1 7] 1 7 7
      (by decide) (by decide)
  · rw [connection_single_subscription.2 (runState [Op.connect 1 5]) 1 7 2 5]
    simp

/-- C2: a broadcast delivery is characterized solely by the subscription and
openness of the receiving connection, and a client subscribed to a different
workspace never receives a broadcast of another workspace. -/
theorem broadcast_workspace_isolation :
    (∀ st c w ev x, ((c, x) ∈ broadcast st w ev ↔
      x = ev ∧ (c, w) ∈ st.registry ∧ c ∈ st.openConns)) ∧
    (∀ ops c w w' ev x, w ≠ w' → (c, w') ∈ (runState ops).registry →
      (c, x) ∉ broadcast (runState ops) w ev) := by
  refine ⟨fun st c w ev x => mem_broadcast, ?_⟩
  intro ops c w w' ev x hne hmem hdel
  rcases mem_broadcast.mp hdel with ⟨-, hreg, -⟩
  exact hne (registryFunctional_runState ops c w w' hreg hmem)

/-- Witness for C2: client 2 is subscribed to workspace 6, so a broadcast
to workspace 5 is not delivered to it. -/
theorem broadcast_workspace_isolation_witness :
    (2, ev0) ∉ broadcast (runState [Op.connect 1 5, Op.connect 2 6]) 5 ev0 :=
  broadcast_workspace_isolation.2 [Op.connect 1 5, Op.connect 2 6] 2 5 6 ev0 ev0
    (by decide) (by decide)

/-- C3: a send attempt to a connection whose socket is closed returns
nothing instead of an error, such a connection receives no delivery, other
connections are unaffected by the closure, each connection receives a
broadcast at most once (no retry), and the client-side send helper likewise
drops messages silently when the socket is not open. -/
theorem broadcast_silently_drops_disconnected :
    (∀ st c ev, c ∉ st.openConns → trySend st c ev = none) ∧
    (∀ st w ev c x, c ∉ st.openConns → (c, x) ∉ broadcast st w ev) ∧
    (∀ st w ev c c', c ≠ c' →
      ((c', ev) ∈ broadcast (socketClosed st c) w ev ↔ (c', ev) ∈ broadcast st w ev)) ∧
    (∀ ops w ev, (broadcast (runState ops) w ev).Nodup) ∧
    (∀ rs msg, rs ≠ ReadyState.OPEN → clientSend rs msg = none) := by
  refine ⟨?_, ?_, ?_, ?_, ?_⟩
  · intro st c ev hc
    unfold trySend
    rw [if_neg hc]
  · intro st w ev c x hc hdel
    rcases mem_broadcast.mp hdel with ⟨-, -, hopen⟩
    exact hc hopen
  · intro st w ev c c' hne
    rw [mem_broadcast, mem_broadcast]
    unfold socketClosed
    have hmem : c' ∈ st.openConns.filter (fun x => x ≠ c) ↔ c' ∈ st.openConns := by
      rw [List.mem_filter]
      simp only [decide_eq_true_eq]
      constructor
      · exact fun hx => hx.1
      · exact fun hx => ⟨hx, fun he => hne he.symm⟩
    rw [hmem]
  · intro ops w ev
    exact broadcast_nodup (runState ops) (registryKeysNodup_runState ops) w ev
  · intro rs msg hrs
    unfold clientSend
    rw [if_neg hrs]

/-- Witness for C3: with clients 1 and 2 subscribed to workspace 5 and the
socket of client 1 dead, a send to 1 yields none, 1 receives nothing,
deliveries to 2 are unchanged, and 1 copy at most reaches each client; a
client-side send over a CLOSED socket is dropped as well. -/
theorem broadcast_silently_drops_disconnected_witness :
    trySend (socketClosed (runState [Op.connect 1 5, Op.connect 2 5]) 1) 1 ev0 = none ∧
    ((1, ev0) ∉ broadcast (socketClosed (runState [Op.connect 1 5, Op.connect 2 5]) 1) 5 ev0) ∧
    ((2, ev0) ∈ broadcast (socketClosed (runState [Op.connect 1 5, Op.connect 2 5]) 1) 5 ev0 ↔
      (2, ev0) ∈ broadcast (runState [Op.connect 1 5, Op.connect 2 5]) 5 ev0) ∧
    (broadcast (runState [Op.connect 1 5, Op.connect 2 5]) 5 ev0).Nodup ∧
    clientSend ReadyState.CLOSED "hello" = none := by
  refine ⟨?_, ?_, ?_, ?_, ?_⟩
  · exact broadcast_silently_drops_disconnected.1 _ 1 ev0 (by decide)
  · exact broadcast_silently_drops_disconnected.2.1 _ 5 ev0 1 ev0 (by decide)
  · exact broadcast_silently_drops_disconnected.2.2.1 _ 5 ev0 1 2 (by decide)
  · exact broadcast_silently_drops_disconnected.2.2.2.1 [Op.connect 1 5, Op.connect 2 5] 5 ev0
  · exact broadcast_silently_drops_disconnected.2.2.2.2 ReadyState.CLOSED "hello" (by decide)

/-- Trace characterization of CHANNEL_CREATED deliveries: starting from any
state, a client receives the event for workspace w with payload d exactly
when some createChannel operation for w and d occurs at a moment when the
client is subscribed to w with an open socket. -/
theorem mem_run_deliveries (ops : List Op) (st : ServerState) (c : ConnId)
    (w : WorkspaceId) (d : ChannelEventData) :
    (c, channelCreatedEvent w d) ∈ (run st ops).2 ↔
      ∃ pre post, ops = pre ++ Op.createChannel w d :: post ∧
        connectedTo (run st pre).1 c w := by
  induction ops generalizing st with
  | nil =>
    constructor
    · intro h
      cases h
    · rintro ⟨pre, post, heq, -⟩
      exact absurd heq (by simp)
  | cons op rest ih =>
    rw [run_cons]
    rw [List.mem_append]
    constructor
    · rintro (hstep | hrest)
      · cases op with
        | connect c0 w0 => cases hstep
        | disconnect c0 => cases hstep
        | close c0 => cases hstep
        | createChannel w0 d0 =>
          rcases mem_broadcast.mp hstep with ⟨hev, hreg, hopen⟩
          have hwd : w = w0 ∧ d = d0 := by
            unfold channelCreatedEvent at hev
            rcases WebSocketEvent.channel.inj hev with h
            exact ⟨congrArg WebSocketChannelEvent.workspaceId h,
              congrArg WebSocketChannelEvent.data h⟩
          rcases hwd with ⟨hw, hd⟩
          refine ⟨[], rest, ?_, ?_, ?_⟩
          · rw [hw, hd]
            rfl
          · rw [hw]
            exact hreg
          · exact hopen
      · rcases (ih (step st op).1).mp hrest with ⟨pre, post, heq, hconn⟩
        exact ⟨op :: pre, post, by rw [heq]; rfl, hconn⟩
    · rintro ⟨pre, post, heq, hconn⟩
      cases pre with
      | nil =>
        obtain ⟨h1, h2⟩ := List.cons.inj heq
        subst h1
        subst h2
        exact Or.inl (mem_broadcast.mpr ⟨rfl, hconn.1, hconn.2⟩)
      | cons op0 pre0 =>
        obtain ⟨h1, h2⟩ := List.cons.inj heq
        subst h1
        exact Or.inr ((ih (step st op).1).mpr ⟨pre0, post, h2, hconn⟩)

/-- C1: a client receives a CHANNEL_CREATED event for workspace w exactly
when a channel is created in w while the client is connected and subscribed
to w, and on the client every received CHANNEL_CREATED message is handed to
the registered channel-event callback. -/
theorem channelCreated_delivered_iff :
    (∀ ops c w d,
      ((c, channelCreatedEvent w d) ∈ deliveries ops ↔
        ∃ pre post, ops = pre ++ Op.createChannel w d :: post ∧
          connectedTo (runState pre) c w)) ∧
    (∀ parse raw pm, parse raw = Except.ok pm → pm.type = "CHANNEL_CREATED" →
      onmessage parse true raw = [HandlerCall.onChannelEvent pm]) := by
  constructor
  · intro ops c w d
    exact mem_run_deliveries ops initialServer c w d
  · intro parse raw pm hok htype
    unfold onmessage onmessageTry
    rw [hok]
    simp only []
    have hc : (True ∧ dispatchTypes.contains pm.type = true) :=
      ⟨trivial, by rw [htype]; rfl⟩
    rw [if_pos hc]

/-- Witness for C1: client 1 connects to workspace 5, a channel is created
there, and the event is delivered; a parsed CHANNEL_CREATED frame reaches
the callback. -/
theorem channelCreated_delivered_iff_witness :
    (1, channelCreatedEvent 5 payload0) ∈
      deliveries [Op.connect 1 5, Op.createChannel 5 payload0] ∧
    onmessage parseOk0 true "frame" = [HandlerCall.onChannelEvent pm0] := by
  constructor
  · exact (channelCreated_delivered_iff.1
      [Op.connect 1 5, Op.createChannel 5 payload0] 1 5 payload0).mpr
      ⟨[Op.connect 1 5], [], rfl, by decide⟩
  · exact channelCreated_delivered_iff.2 parseOk0 "frame" pm0 rfl rfl

/-- C4: reconnection is driven by the client: the onclose handler schedules
the next attempt itself with delays 1000, 2000, 4000, 8000, 10000 ms —
doubling while below the 10000 ms cap, then pinned to the cap — and gives
up once maxReconnectAttempts attempts have been made, while the server
sends nothing to a newly (re)connected socket (no session resumption, no
replay). -/
theorem reconnect_exponential_backoff :
    reconnectDelays 0 = [1000, 2000, 4000, 8000, 10000] ∧
    (reconnectDelays 0).length = maxReconnectAttempts ∧
    (∀ n, n < 3 → backoffTime (n + 1) = 2 * backoffTime n) ∧
    (∀ n, backoffTime n ≤ 10000) ∧
    (∀ n, 4 ≤ n → backoffTime n = 10000) ∧
    (∀ n, (oncloseReconnect n = none ↔ maxReconnectAttempts ≤ n)) ∧
    (∀ st c w, (step st (Op.connect c w)).2 = []) := by
  have hds : reconnectDelays 0 = [1000, 2000, 4000, 8000, 10000] := by
    rw [reconnectDelays, reconnectDelays, reconnectDelays, reconnectDelays,
      reconnectDelays, reconnectDelays]
    rfl
  refine ⟨hds, by rw [hds]; rfl, ?_, ?_, ?_, ?_, fun st c w => rfl⟩
  · intro n hn
    interval_cases n <;> rfl
  · intro n
    exact min_le_right _ _
  · intro n hn
    unfold backoffTime
    have h2 : (16 : Nat) ≤ 2 ^ n := by
      calc (16 : Nat) = 2 ^ 4 := by norm_num
        _ ≤ 2 ^ n := Nat.pow_le_pow_right (by norm_num) hn
    have hbig : (10000 : Nat) ≤ 1000 * 2 ^ n := by
      calc (10000 : Nat) ≤ 1000 * 16 := by norm_num
        _ ≤ 1000 * 2 ^ n := Nat.mul_le_mul_left 1000 h2
    exact min_eq_right hbig
  · intro n
    unfold oncloseReconnect
    by_cases h : n < maxReconnectAttempts
    · rw [if_pos h]
      constructor
      · intro hc
        simp at hc
      · intro hle
        have h5 : n < 5 := h
        exact absurd hle (by omega)
    · rw [if_neg h]
      constructor
      · intro hnone
        have h5 : ¬ n < 5 := h
        omega
      · intro hle
        rfl

/-- Witness for C4 at concrete attempt counters. -/
theorem reconnect_exponential_backoff_witness :
    backoffTime 2 = 2 * backoffTime 1 ∧
    backoffTime 6 = 10000 ∧
    (oncloseReconnect 5 = none ↔ maxReconnectAttempts ≤ 5) ∧
    (step initialServer (Op.connect 1 5)).2 = [] := by
  refine ⟨?_, ?_, ?_, ?_⟩
  · exact reconnect_exponential_backoff.2.2.1 1 (by decide)
  · exact reconnect_exponential_backoff.2.2.2.2.1 6 (by decide)
  · exact reconnect_exponential_backoff.2.2.2.2.2.1 5
  · exact reconnect_exponential_backoff.2.2.2.2.2.2 initialServer 1 5

/-- Character-level content of the upgrade request target. -/
theorem wsRequestTarget_data (w : Nat) :
    (wsRequestTarget w).data =
      '/' :: 'w' :: 's' :: '?' :: ("workspaceId=".data ++ (Nat.repr w).data) := rfl

/-- C5: the layer exposes the single upgrade endpoint /ws, and the URL the
client builds targets exactly that path with the workspace identifier as
the workspaceId query parameter. -/
theorem single_upgrade_endpoint :
    upgradeEndpoints.length = 1 ∧
    (∀ p h w, wsUrl p h w = wsProtocol p ++ "//" ++ h ++ wsRequestTarget w) ∧
    (∀ w, pathOf (wsRequestTarget w) = "/ws") ∧
    (∀ w, pathOf (wsRequestTarget w) ∈ upgradeEndpoints) ∧
    (∀ w, queryOf (wsRequestTarget w) = "workspaceId=" ++ Nat.repr w) := by
  have hpath : ∀ w, pathOf (wsRequestTarget w) = "/ws" := by
    intro w
    unfold pathOf
    rw [wsRequestTarget_data]
    rfl
  refine ⟨rfl, fun p h w => rfl, hpath, ?_, ?_⟩
  · intro w
    rw [hpath w]
    exact List.mem_singleton.mpr rfl
  · intro w
    unfold queryOf
    rw [wsRequestTarget_data]
    rfl

/-- C6: every outbound message has the single shape of a type tag, a
workspaceId and a data payload; the serialization loses nothing (it is
injective, so the layer emits no other shape), and the channel lifecycle
messages are exactly those whose tag is one of the three channel event
types. -/
theorem outbound_single_shape :
    (∀ e : WebSocketChannelEvent, (WebSocketEvent.channel e).shape =
      { type := e.type.tag, workspaceId := e.workspaceId, data := .channel e.data }) ∧
    (∀ e : WebSocketMessageEvent, (WebSocketEvent.message e).shape =
      { type := "MESSAGE_CREATED", workspaceId := e.workspaceId, data := .message e.data }) ∧
    Function.Injective WebSocketEvent.shape ∧
    (∀ ev : WebSocketEvent, ev.isChannelLifecycle = true ↔
      ev.shape.type ∈ dispatchTypes) := by
  refine ⟨fun e => rfl, fun e => rfl, ?_, ?_⟩
  · intro a b hab
    cases a with
    | channel ea =>
      cases b with
      | channel eb =>
        have ht : ea.type.tag = eb.type.tag := congrArg OutboundShape.type hab
        have hw : ea.workspaceId = eb.workspaceId := congrArg OutboundShape.workspaceId hab
        have hd : ea.data = eb.data :=
          EventData.channel.inj (congrArg OutboundShape.data hab)
        have htype : ea.type = eb.type := by
          revert ht
          cases ea.type <;> cases eb.type <;> intro ht <;>
            first
            | rfl
            | exact absurd ht (by decide)
        cases ea with
        | mk t1 w1 d1 =>
          cases eb with
          | mk t2 w2 d2 =>
            simp only at htype hw hd
            rw [htype, hw, hd]
      | message eb =>
        exact EventData.noConfusion (congrArg OutboundShape.data hab)
    | message ea =>
      cases b with
      | channel eb =>
        exact EventData.noConfusion (congrArg OutboundShape.data hab)
      | message eb =>
        have hw : ea.workspaceId = eb.workspaceId := congrArg OutboundShape.workspaceId hab
        have hd : ea.data = eb.data :=
          EventData.message.inj (congrArg OutboundShape.data hab)
        cases ea with
        | mk w1 d1 =>
          cases eb with
          | mk w2 d2 =>
            simp only at hw hd
            rw [hw, hd]
  · intro ev
    cases ev with
    | channel e =>
      cases e with
      | mk t wk dt =>
        cases t <;>
          simp [WebSocketEvent.isChannelLifecycle, WebSocketEvent.shape,
            ChannelEventType.tag, dispatchTypes]
    | message e =>
      cases e with
      | mk wk dt =>
        simp [WebSocketEvent.isChannelLifecycle, WebSocketEvent.shape, dispatchTypes]

/-- Witness for C6 at a concrete channel event. -/
theorem outbound_single_shape_witness :
    ev0 = ev0 ∧ WebSocketEvent.isChannelLifecycle ev0 = true := by
  constructor
  · exact outbound_single_shape.2.2.1 rfl
  · exact (outbound_single_shape.2.2.2 ev0).mpr (by decide)

end ChatGenius
